import Mathlib

/-!
Shallow embedding of the multi-source video capture system
(repository `security-video-detection`).

The embedding covers:
* `src/utils/VideoSource.py`  — the per-source capture worker,
* `src/utils/VideoManager.py` — the registry / reconciliation manager,
* `src/utils/VideoSourceHelper.py` — source discovery,
* `src/camera/VideoSource.py` — the second worker variant (its `read`).

External effects are modelled explicitly:
* a `Backend` value describes what `cv2.VideoCapture(source)` yields for one
  open attempt (whether it opens, the FPS it reports, the frame stream);
* an `Env` bundles the backend, the camera device map and the file system
  (directory listing) used by discovery;
* numpy buffers are modelled by a `Heap` of buffers addressed by index, so
  that `.copy()` (fresh allocation) and aliasing are observable;
* Python floats carrying FPS values are modelled by `ℚ` (the only operations
  used are comparison with 0, the default 30.0 and the reciprocal).

Operations are sequential: each Python method becomes a pure state
transformer.  The capture thread's loop (`_update`) is modelled as a
function that runs the loop to completion.
-/

/-- A numpy image buffer: its pixel contents. -/
abbrev Buf := List Nat

/-- The heap of live numpy buffers; a buffer reference is an index into it. -/
structure Heap where
  bufs : List Buf
  deriving DecidableEq, Repr

/-- Dereference a buffer (out-of-range reads give the empty buffer). -/
def Heap.get (h : Heap) (r : Nat) : Buf := h.bufs.getD r []

/-- Allocate a fresh buffer holding `b`; returns the new heap and the
fresh reference. Models `numpy.ndarray.copy` / frame decoding. -/
def Heap.alloc (h : Heap) (b : Buf) : Heap × Nat :=
  ({ bufs := h.bufs ++ [b] }, h.bufs.length)

/-- Overwrite the buffer at reference `r` in place (models mutating a
numpy array a caller holds). -/
def Heap.write (h : Heap) (r : Nat) (b : Buf) : Heap :=
  { bufs := h.bufs.set r b }

/-- `SourceType = Union[int, str]`: a camera index or a file path. -/
abbrev SourceType := Nat ⊕ String

/-- `str(source)` for a source identifier. -/
def sourceStr : SourceType → String
  | Sum.inl n => toString n
  | Sum.inr s => s

/-- Membership in a list of source identifiers is decidable (the generic
instance chain is not found for `Nat ⊕ String`, so we give it directly). -/
instance instMemSrcDec (a : SourceType) : (l : List SourceType) → Decidable (a ∈ l)
  | [] => isFalse (by simp)
  | b :: t =>
    match inferInstanceAs (Decidable (a = b)), instMemSrcDec a t with
    | isTrue h, _ => isTrue (by simp [h])
    | isFalse _, isTrue ht => isTrue (List.mem_cons_of_mem _ ht)
    | isFalse h, isFalse ht => isFalse (by simp [List.mem_cons, h, ht])

/-- One open attempt of `cv2.VideoCapture(source)`: whether `isOpened()`
holds, the FPS reported by `cap.get(cv2.CAP_PROP_FPS)`, and the stream of
frames successive `cap.read()` calls decode before failing. -/
structure Backend where
  opens : Bool
  fps : ℚ
  stream : List Buf

/-- The state of `utils.VideoSource.VideoSource`.  `capOpen`/`capFrames`
model the owned `cv2.VideoCapture` handle (whether it is open, and the
frames it has left to yield); `frame` is a reference into the `Heap`. -/
structure VideoSource where
  source : SourceType
  name : String
  capOpen : Bool
  capFrames : List Buf
  source_fps : ℚ
  frame : Option Nat
  running : Bool
  active : Bool
  deriving DecidableEq, Repr

namespace VideoSource

/-- `VideoSource.__init__(source, name)`: opens `cv2.VideoCapture(source)`
and RAISES (`Except.error`) if it is not opened; otherwise stores the FPS
(defaulting to 30.0 when the reported value is not positive) and starts
with no frame, not running, not active.  `name or str(source)`: an absent
or empty name falls back to `str(source)`. -/
def init (b : Backend) (source : SourceType) (name : Option String) :
    Except String VideoSource :=
  let nm := match name with
    | none => sourceStr source
    | some n => if n = "" then sourceStr source else n
  if b.opens = false then
    Except.error ("[" ++ nm ++ "] Cannot open source " ++ sourceStr source)
  else
    Except.ok
      { source := source
        name := nm
        capOpen := true
        capFrames := b.stream
        source_fps := if b.fps > 0 then b.fps else 30
        frame := none
        running := false
        active := false }

/-- `VideoSource.start()`: if already running, return immediately;
otherwise set `running`, spawn the capture thread, set `active`.
The spawned loop itself is `updateRun`. -/
def start (w : VideoSource) : VideoSource :=
  if w.running then w
  else { w with running := true, active := true }

/-- One `cap.read()` call: succeeds (returning a freshly decoded buffer)
iff the handle is open and the stream is not exhausted. -/
def capRead (h : Heap) (w : VideoSource) : Heap × Option Nat × VideoSource :=
  if w.capOpen then
    match w.capFrames with
    | [] => (h, none, w)
    | f :: rest =>
      let (h', r) := h.alloc f
      (h', some r, { w with capFrames := rest })
  else (h, none, w)

/-- The delay computed by `_update`: `1.0 / self.source_fps`. -/
def updateDelay (w : VideoSource) : ℚ := 1 / w.source_fps

/-- `VideoSource._update()` run to completion: while `running`, read one
frame; on failure clear `running` and `active` and exit; on success
publish the frame and loop.  (`time.sleep` has no observable effect in
the model.) -/
def updateRun (h : Heap) (w : VideoSource) : Heap × VideoSource :=
  if w.running = false then (h, w)
  else if w.capOpen = false then
    (h, { w with running := false, active := false })
  else
    match hc : w.capFrames with
    | [] => (h, { w with running := false, active := false })
    | f :: rest =>
      let (h', r) := h.alloc f
      updateRun h' { w with capFrames := rest, frame := some r }
  termination_by w.capFrames.length
  decreasing_by simp [hc]

/-- `VideoSource.read()`: `None` unless `active`; otherwise a defensive
copy (`self.frame.copy()`, a fresh allocation) of the latest frame, or
`None` if no frame was decoded yet. -/
def read (h : Heap) (w : VideoSource) : Option Nat × Heap :=
  if w.active = false then (none, h)
  else
    match w.frame with
    | none => (none, h)
    | some r =>
      let (h', r') := h.alloc (h.get r)
      (some r', h')

/-- `VideoSource.stop()`: clear `running`, join the thread, release the
handle if open, clear `active`. -/
def stop (w : VideoSource) : VideoSource :=
  { w with running := false, capOpen := false, active := false }

/-- `VideoSource.restart()`: `stop()`, then reopen
`cv2.VideoCapture(self.source)` from the given backend; on success
`start()`, on failure leave `active` cleared and RAISE (the `Bool` is
`false`).  Returns the worker state either way because the Python object
is mutated in place even when the exception propagates. -/
def restart (b : Backend) (w : VideoSource) : VideoSource × Bool :=
  let w₁ := stop w
  let w₂ := { w₁ with capOpen := b.opens,
                      capFrames := if b.opens then b.stream else [] }
  if b.opens then (start w₂, true)
  else ({ w₂ with active := false }, false)

/-- `VideoSource.is_active()`. -/
def is_active (w : VideoSource) : Bool := w.active

end VideoSource

/-- `camera.VideoSource.read` (the second worker variant): a defensive
copy of the latest frame with no `active` gate. -/
def cameraRead (h : Heap) (frame : Option Nat) : Option Nat × Heap :=
  match frame with
  | none => (none, h)
  | some r =>
    let (h', r') := h.alloc (h.get r)
    (some r', h')

/-- The external environment a manager run observes: the camera device
map (`VideoDeviceDetection.get_device_map`, external enumeration), the
file system (`os.path.isdir` + `os.listdir`: `dirs p = some entries` iff
`p` is a directory listing `entries`), and what `cv2.VideoCapture`
yields per source identifier. -/
structure Env where
  deviceMap : List (Nat × String)
  dirs : String → Option (List String)
  backend : SourceType → Backend

/-- Python `str.lower()`: lowercase each character. -/
def strLower (s : String) : String := ⟨s.data.map Char.toLower⟩

/-- Python `str.endswith(sfx)`: suffix test on the characters. -/
def strEndsWith (s sfx : String) : Bool := List.isSuffixOf sfx.data s.data

/-- `os.path.join(folder, f)` (POSIX behaviour, the only case the code
exercises): absolute `f` wins, otherwise a single separator is inserted. -/
def osPathJoin (folder f : String) : String :=
  if f.data.head? = some (Char.ofNat 47) then f
  else if folder = "" then f
  else if folder.data.getLast? = some (Char.ofNat 47) then folder ++ f
  else folder ++ "/" ++ f

namespace VideoSourceHelper

/-- `VideoSourceHelper.get_camera_sources()`: the OpenCV indices of the
device map. -/
def get_camera_sources (env : Env) : List Nat :=
  env.deviceMap.map (fun p => p.1)

/-- `VideoSourceHelper.get_video_files(folder, extension=".mp4")`: empty
when `folder` is not a directory; otherwise the entries whose lowercased
name ends with the lowercased extension, each joined with `folder`. -/
def get_video_files (env : Env) (folder : String) (extension : String) :
    List String :=
  match env.dirs folder with
  | none => []
  | some entries =>
    (entries.filter (fun f => strEndsWith (strLower f) (strLower extension))).map
      (fun f => osPathJoin folder f)

/-- `VideoSourceHelper.get_all_sources(video_folder="videos")`: camera
indices followed by the discovered video file paths. -/
def get_all_sources (env : Env) (video_folder : String) : List SourceType :=
  (get_camera_sources env).map Sum.inl ++
    (get_video_files env video_folder ".mp4").map Sum.inr

end VideoSourceHelper

/-- The state of `utils.VideoManager.VideoManager`: the discovery folder
and the ordered worker list. -/
structure VideoManager where
  video_folder : String
  sources : List VideoSource
  deriving DecidableEq, Repr

namespace VideoManager

/-- Builds the worker list of `VideoManager.__init__`: one
`VideoSource(src, name=f"Source {i}")` per configured identifier, in
order.  A constructor failure propagates (there is no `try` in
`__init__`). -/
def initWorkers (env : Env) : List SourceType → Nat →
    Except String (List VideoSource)
  | [], _ => Except.ok []
  | s :: rest, i =>
    match VideoSource.init (env.backend s) s (some ("Source " ++ toString i)) with
    | Except.error e => Except.error e
    | Except.ok w =>
      match initWorkers env rest (i + 1) with
      | Except.error e => Except.error e
      | Except.ok ws => Except.ok (w :: ws)

/-- `VideoManager.__init__(sources, video_folder="videos")`. -/
def init (env : Env) (srcs : List SourceType) (video_folder : String) :
    Except String VideoManager :=
  match initWorkers env srcs 0 with
  | Except.error e => Except.error e
  | Except.ok ws => Except.ok { video_folder := video_folder, sources := ws }

/-- `VideoManager.start_all()`: starts every worker inside a per-worker
`try`/`except` and counts successes; `start()` itself cannot raise in
this variant, so every worker counts.  Exits with a fatal error
(`exit(1)`) iff the success count is zero, i.e. iff the registry is
empty. -/
def start_all (m : VideoManager) : Except String VideoManager :=
  let started := m.sources.map VideoSource.start
  if m.sources.length = 0 then
    Except.error "[FATAL] No video sources available."
  else Except.ok { m with sources := started }

/-- `VideoManager.get_active_sources()`. -/
def get_active_sources (m : VideoManager) : List VideoSource :=
  m.sources.filter (fun s => s.is_active)

/-- `VideoManager.add_new_source(source, name)`: construct and start a
worker, appending it; a constructor failure is caught and the registry
is left unchanged. -/
def add_new_source (env : Env) (m : VideoManager) (src : SourceType)
    (name : String) : VideoManager :=
  match VideoSource.init (env.backend src) src (some name) with
  | Except.ok w => { m with sources := m.sources ++ [w.start] }
  | Except.error _ => m

/-- The first phase of `restart_sources`: add every detected identifier
that is not in `existing_sources_set` (computed once, from the registry
as it was before the loop). -/
def addDetected (env : Env) (existing : List SourceType) :
    List SourceType → VideoManager → VideoManager
  | [], m => m
  | src :: rest, m =>
    if src ∈ existing then addDetected env existing rest m
    else addDetected env existing rest
      (add_new_source env m src ("Source " ++ toString m.sources.length))

/-- The second phase of `restart_sources`, applied to each worker: if it
is not active, call `restart()`, keeping the mutated worker whether or
not the call raised (`RuntimeError` is caught). -/
def restartIfInactive (env : Env) (w : VideoSource) : VideoSource :=
  if w.is_active then w
  else (VideoSource.restart (env.backend w.source) w).1

/-- `VideoManager.restart_sources()`: detect all sources, add the ones
not already managed, then attempt `restart()` on every inactive
worker. -/
def restart_sources (env : Env) (m : VideoManager) : VideoManager :=
  let detected := VideoSourceHelper.get_all_sources env m.video_folder
  let existing := m.sources.map (fun s => s.source)
  let m' := addDetected env existing detected m
  { m' with sources := m'.sources.map (restartIfInactive env) }

/-- `VideoManager.stop_all()`. -/
def stop_all (m : VideoManager) : VideoManager :=
  { m with sources := m.sources.map VideoSource.stop }

end VideoManager

/-- What the next `read()` call would hand to a consumer: the contents of
the returned buffer (`none` when `read()` returns `None`). -/
def readContent (h : Heap) (w : VideoSource) : Option Buf :=
  match VideoSource.read h w with
  | (none, _) => none
  | (some r', h') => some (h'.get r')

/-- The workers the add-phase of `restart_sources` appends: one started
worker per detected identifier that is not in `existing_sources_set` and
whose constructor succeeds, named by the registry size at insertion. -/
def newWorkers (env : Env) (ex : List SourceType) :
    List SourceType → Nat → List VideoSource
  | [], _ => []
  | s :: rest, k =>
    if s ∈ ex then newWorkers env ex rest k
    else
      match VideoSource.init (env.backend s) s (some ("Source " ++ toString k)) with
      | Except.ok w => w.start :: newWorkers env ex rest (k + 1)
      | Except.error _ => newWorkers env ex rest k

theorem Heap.alloc_snd (h : Heap) (b : Buf) : (h.alloc b).2 = h.bufs.length := rfl

theorem Heap.get_alloc_self (h : Heap) (b : Buf) :
    (h.alloc b).1.get h.bufs.length = b := by
  simp [Heap.alloc, Heap.get, List.getD_eq_getElem?_getD, List.getElem?_concat_length]

theorem Heap.get_alloc_lt (h : Heap) (b : Buf) (r : Nat) (hr : r < h.bufs.length) :
    (h.alloc b).1.get r = h.get r := by
  simp [Heap.alloc, Heap.get, List.getD_eq_getElem?_getD, List.getElem?_append, hr]

theorem Heap.get_write_ne (h : Heap) (r r' : Nat) (b : Buf) (hne : r' ≠ r) :
    (h.write r' b).get r = h.get r := by
  simp [Heap.write, Heap.get, List.getD_eq_getElem?_getD, List.getElem?_set_ne hne]

/-- C7: `stop()` is idempotent: a second `stop()` in succession raises
nothing (it is a total function) and leaves the worker state unchanged;
a stopped worker is inactive and not running. -/
theorem stop_idempotent (w : VideoSource) :
    VideoSource.stop (VideoSource.stop w) = VideoSource.stop w ∧
    (VideoSource.stop w).is_active = false ∧
    (VideoSource.stop w).running = false :=
  ⟨rfl, rfl, rfl⟩

/-- C9: a successfully constructed worker's nominal frame rate is
positive, equals the backend's reported rate when that is positive and
defaults to 30 otherwise; the capture loop sleeps `1 / source_fps`. -/
theorem source_fps_positive_delay (b : Backend) (src : SourceType)
    (nm : Option String) (hopen : b.opens = true) :
    ∃ w, VideoSource.init b src nm = Except.ok w ∧
      0 < w.source_fps ∧
      (0 < b.fps → w.source_fps = b.fps) ∧
      (b.fps ≤ 0 → w.source_fps = 30) ∧
      VideoSource.updateDelay w = 1 / w.source_fps := by
  unfold VideoSource.init
  rw [hopen]
  simp only [Bool.true_eq_false, if_false]
  refine ⟨_, rfl, ?_, ?_, ?_, rfl⟩
  · by_cases hf : b.fps > 0 <;> simp [hf]
  · intro h
    simp [h]
  · intro h
    have : ¬ b.fps > 0 := by linarith
    simp [this]

/-- C9 witness: a backend reporting FPS 0 yields the default rate 30. -/
theorem source_fps_positive_delay_witness :
    (⟨true, 0, []⟩ : Backend).opens = true ∧
    ∃ w, VideoSource.init ⟨true, 0, []⟩ (Sum.inl 0) none = Except.ok w ∧
      0 < w.source_fps ∧
      (0 < (⟨true, 0, []⟩ : Backend).fps → w.source_fps = (⟨true, 0, []⟩ : Backend).fps) ∧
      ((⟨true, 0, []⟩ : Backend).fps ≤ 0 → w.source_fps = 30) ∧
      VideoSource.updateDelay w = 1 / w.source_fps :=
  ⟨rfl, source_fps_positive_delay ⟨true, 0, []⟩ (Sum.inl 0) none rfl⟩

/-- C4: `read()` returns a fresh copy of the latest frame exactly when
the worker is active and a frame exists (the copy's contents equal the
stored frame's contents), and returns `None` otherwise; after `stop()`
the worker is inactive and `read()` returns `None`. -/
theorem read_copy_iff_active (h : Heap) (w : VideoSource) :
    (∀ r, w.active = true → w.frame = some r →
        (VideoSource.read h w).1 = some h.bufs.length ∧
        (VideoSource.read h w).2.get h.bufs.length = h.get r) ∧
    (w.active = false ∨ w.frame = none → (VideoSource.read h w).1 = none) ∧
    (VideoSource.stop w).is_active = false ∧
    (VideoSource.read h (VideoSource.stop w)).1 = none := by
  refine ⟨?_, ?_, rfl, ?_⟩
  · intro r hact hfr
    simp [VideoSource.read, hact, hfr, Heap.get_alloc_self, Heap.alloc_snd]
  · rintro (hact | hfr)
    · simp [VideoSource.read, hact]
    · cases hact : w.active <;> simp [VideoSource.read, hact, hfr]
  · simp [VideoSource.read, VideoSource.stop]

/-- C4 witness: an active worker holding frame reference 0 over a
one-buffer heap; `read` hands out reference 1 with the same contents. -/
theorem read_copy_iff_active_witness :
    ((⟨Sum.inl 0, "0", true, [], 30, some 0, true, true⟩ : VideoSource).active = true ∧
      (⟨Sum.inl 0, "0", true, [], 30, some 0, true, true⟩ : VideoSource).frame = some 0) ∧
    (VideoSource.read ⟨[[7, 7]]⟩ ⟨Sum.inl 0, "0", true, [], 30, some 0, true, true⟩).1
        = some 1 ∧
    (VideoSource.read ⟨[[7, 7]]⟩ ⟨Sum.inl 0, "0", true, [], 30, some 0, true, true⟩).2.get 1
        = Heap.get ⟨[[7, 7]]⟩ 0 :=
  ⟨⟨rfl, rfl⟩,
    (read_copy_iff_active ⟨[[7, 7]]⟩ ⟨Sum.inl 0, "0", true, [], 30, some 0, true, true⟩).1
      0 rfl rfl⟩

/-- C8: `read()` never returns a buffer aliasing the internal frame
slot: the returned reference is fresh, overwriting it leaves the stored
frame's buffer unchanged, and the next `read()` still hands out the
original contents.  The same holds for the `camera` variant's `read`. -/
theorem read_never_aliases (h : Heap) (w : VideoSource) (r : Nat) (buf : Buf)
    (hact : w.active = true) (hfr : w.frame = some r) (hr : r < h.bufs.length) :
    (VideoSource.read h w).1 = some h.bufs.length ∧
    h.bufs.length ≠ r ∧
    ((VideoSource.read h w).2.write h.bufs.length buf).get r = h.get r ∧
    readContent (((VideoSource.read h w).2).write h.bufs.length buf) w = readContent h w ∧
    (cameraRead h (some r)).1 = some h.bufs.length ∧
    ((cameraRead h (some r)).2.write h.bufs.length buf).get r = h.get r := by
  have hne : h.bufs.length ≠ r := Nat.ne_of_gt hr
  have hread : VideoSource.read h w = (some h.bufs.length, (h.alloc (h.get r)).1) := by
    simp [VideoSource.read, hact, hfr]
    rfl
  have hget : ∀ b : Buf, (((h.alloc (h.get r)).1).write h.bufs.length b).get r = h.get r := by
    intro b
    rw [Heap.get_write_ne _ _ _ _ hne, Heap.get_alloc_lt _ _ _ hr]
  refine ⟨by rw [hread], hne, by rw [hread]; exact hget buf, ?_, ?_, ?_⟩
  · rw [hread]
    simp only [readContent, VideoSource.read, hact, hfr]
    simp [hget buf, Heap.alloc_snd, Heap.get_alloc_self]
  · simp [cameraRead, Heap.alloc_snd]
  · simp only [cameraRead]
    simp [hget buf, Heap.alloc_snd]

/-- C8 witness: mutating the copy handed out by `read` does not change
what the next `read` returns. -/
theorem read_never_aliases_witness :
    ((⟨Sum.inl 0, "0", true, [], 30, some 0, true, true⟩ : VideoSource).active = true ∧
      (⟨Sum.inl 0, "0", true, [], 30, some 0, true, true⟩ : VideoSource).frame = some 0 ∧
      0 < (⟨[[7, 7]]⟩ : Heap).bufs.length) ∧
    ((VideoSource.read ⟨[[7, 7]]⟩ ⟨Sum.inl 0, "0", true, [], 30, some 0, true, true⟩).1
        = some 1 ∧
      (1 : Nat) ≠ 0 ∧
      ((VideoSource.read ⟨[[7, 7]]⟩
            ⟨Sum.inl 0, "0", true, [], 30, some 0, true, true⟩).2.write 1 [9]).get 0
        = Heap.get ⟨[[7, 7]]⟩ 0 ∧
      readContent
          (((VideoSource.read ⟨[[7, 7]]⟩
                ⟨Sum.inl 0, "0", true, [], 30, some 0, true, true⟩).2).write 1 [9])
          ⟨Sum.inl 0, "0", true, [], 30, some 0, true, true⟩
        = readContent ⟨[[7, 7]]⟩ ⟨Sum.inl 0, "0", true, [], 30, some 0, true, true⟩ ∧
      (cameraRead ⟨[[7, 7]]⟩ (some 0)).1 = some 1 ∧
      ((cameraRead ⟨[[7, 7]]⟩ (some 0)).2.write 1 [9]).get 0 = Heap.get ⟨[[7, 7]]⟩ 0) :=
  ⟨⟨rfl, rfl, by decide⟩,
    read_never_aliases ⟨[[7, 7]]⟩ ⟨Sum.inl 0, "0", true, [], 30, some 0, true, true⟩ 0 [9]
      rfl rfl (by decide)⟩

/-- C1 counterexample: `start()` does not open the capture handle.  A
worker whose handle was released by `stop()` is started again: `start()`
returns successfully (`isActive()` becomes true) while no handle is
open, and an identifier that fails to open makes the *constructor*
raise, so no worker exists for `start()` to fail on. -/
theorem start_does_not_open_counterexample :
    ((VideoSource.init ⟨true, 30, []⟩ (Sum.inl 0) none).map
        (fun w => (VideoSource.stop w).start)).toOption.map
        (fun w => (w.is_active, w.capOpen)) = some (true, false) ∧
    (VideoSource.init ⟨false, 30, []⟩ (Sum.inl 0) none).toOption = none := by
  exact ⟨by decide, by decide⟩

/-- C1 (amended): the capture handle is opened by the worker's
constructor, which raises when the open fails (so no worker is created
and no state becomes Running); `start()` reuses whatever handle state
the worker already has, performing no open, and after `start()` returns
on a non-running worker, `isActive()` is true. -/
theorem open_in_constructor_start_reuses (b : Backend) (src : SourceType)
    (nm : Option String) (w : VideoSource) :
    (b.opens = false → (VideoSource.init b src nm).toOption = none) ∧
    (∀ w', VideoSource.init b src nm = Except.ok w' →
        w'.capOpen = true ∧ w'.is_active = false) ∧
    ((VideoSource.start w).capOpen = w.capOpen ∧
      (VideoSource.start w).capFrames = w.capFrames) ∧
    (w.running = false → (VideoSource.start w).is_active = true) := by
  refine ⟨?_, ?_, ?_, ?_⟩
  · intro hb
    simp [VideoSource.init, hb, Except.toOption]
  · intro w' hw'
    cases hb : b.opens
    · simp [VideoSource.init, hb] at hw'
    · simp [VideoSource.init, hb] at hw'
      simp [← hw', VideoSource.is_active]
  · cases hr : w.running <;> simp [VideoSource.start, hr]
  · intro hr
    simp [VideoSource.start, hr, VideoSource.is_active]

/-- C1 witness: a failed open is visible at construction, and `start()`
on a stopped (non-running) worker reports active. -/
theorem open_in_constructor_start_reuses_witness :
    (VideoSource.init (⟨false, 30, []⟩ : Backend) (Sum.inl 0) none).toOption = none ∧
    (VideoSource.start
        ⟨Sum.inl 0, "0", false, [], 30, none, false, false⟩).is_active = true :=
  ⟨(open_in_constructor_start_reuses ⟨false, 30, []⟩ (Sum.inl 0) none
      ⟨Sum.inl 0, "0", false, [], 30, none, false, false⟩).1 rfl,
    (open_in_constructor_start_reuses ⟨false, 30, []⟩ (Sum.inl 0) none
      ⟨Sum.inl 0, "0", false, [], 30, none, false, false⟩).2.2.2 rfl⟩

/-- C2 counterexample: the scenario of a registry holding `[0, "a.mp4"]`
where `0` fails to open never reaches `start_all`: opening happens in
the worker constructor, so `VideoManager.__init__` raises and no
registry is built. -/
theorem registry_with_failed_open_counterexample :
    (VideoManager.init
        ⟨[], fun _ => none,
          fun s => if s = Sum.inr "a.mp4" then ⟨true, 30, [[1]]⟩ else ⟨false, 0, []⟩⟩
        [Sum.inl 0, Sum.inr "a.mp4"] "videos").toOption = none := by
  decide

/-- If some configured identifier fails to open, building the worker
list raises. -/
theorem initWorkers_error (env : Env) (l : List SourceType) (i : Nat)
    (hex : ∃ s ∈ l, (env.backend s).opens = false) :
    (VideoManager.initWorkers env l i).toOption = none := by
  induction l generalizing i with
  | nil => simp at hex
  | cons s rest ih =>
    rw [VideoManager.initWorkers]
    cases hb : (env.backend s).opens
    · simp [VideoSource.init, hb, Except.toOption]
    · rcases hex with ⟨t, ht, hbt⟩
      rcases List.mem_cons.mp ht with rfl | htr
      · rw [hb] at hbt
        exact absurd hbt (by simp)
      · have he := ih (i + 1) ⟨t, htr, hbt⟩
        cases hrec : VideoManager.initWorkers env rest (i + 1)
        · simp [VideoSource.init, hb, hrec, Except.toOption]
        · rw [hrec] at he
          simp [Except.toOption] at he

/-- C2 (amended): `start_all` wraps each worker's `start()` in a
per-worker `try`/`except` and escalates to the fatal exit iff the count
of successfully started workers is zero; since `start()` cannot fail in
this variant (the handle is opened in the constructor), that count is
the registry size, so the fatal exit happens iff the registry is empty.
A source that fails to open aborts `VideoManager` construction instead,
so the claimed `[0, "a.mp4"]` registry is never built. -/
theorem start_all_fatal_iff_zero_started (env : Env) (m : VideoManager)
    (srcs : List SourceType) (folder : String) :
    ((VideoManager.start_all m).toOption = none ↔ m.sources = []) ∧
    (m.sources ≠ [] → VideoManager.start_all m =
        Except.ok { m with sources := m.sources.map VideoSource.start }) ∧
    ((∃ s ∈ srcs, (env.backend s).opens = false) →
        (VideoManager.init env srcs folder).toOption = none) := by
  refine ⟨?_, ?_, ?_⟩
  · unfold VideoManager.start_all
    cases hm : m.sources <;> simp [Except.toOption]
  · intro hm
    unfold VideoManager.start_all
    simp [hm]
  · intro hex
    have he := initWorkers_error env srcs 0 hex
    rw [VideoManager.init]
    cases hrec : VideoManager.initWorkers env srcs 0
    · simp [Except.toOption]
    · rw [hrec] at he
      simp [Except.toOption] at he

/-- C2 witness: a one-worker registry passes `start_all` with the worker
started, and the `[0, "a.mp4"]` configuration with `0` failing to open
aborts construction. -/
theorem start_all_fatal_iff_zero_started_witness :
    ((⟨"videos", [⟨Sum.inl 0, "Source 0", true, [], 30, none, false, false⟩]⟩ :
        VideoManager).sources ≠ [] ∧
      (∃ s ∈ [Sum.inl 0, Sum.inr "a.mp4"],
        ((⟨[], fun _ => none,
            fun s => if s = Sum.inr "a.mp4" then ⟨true, 30, [[1]]⟩ else ⟨false, 0, []⟩⟩ :
              Env).backend s).opens = false)) ∧
    VideoManager.start_all
        ⟨"videos", [⟨Sum.inl 0, "Source 0", true, [], 30, none, false, false⟩]⟩ =
      Except.ok
        ⟨"videos", [⟨Sum.inl 0, "Source 0", true, [], 30, none, true, true⟩]⟩ ∧
    (VideoManager.init
        ⟨[], fun _ => none,
          fun s => if s = Sum.inr "a.mp4" then ⟨true, 30, [[1]]⟩ else ⟨false, 0, []⟩⟩
        [Sum.inl 0, Sum.inr "a.mp4"] "videos").toOption = none := by
  refine ⟨⟨by decide, ⟨Sum.inl 0, by decide, by decide⟩⟩, ?_, ?_⟩
  · have h := (start_all_fatal_iff_zero_started
        ⟨[], fun _ => none,
          fun s => if s = Sum.inr "a.mp4" then ⟨true, 30, [[1]]⟩ else ⟨false, 0, []⟩⟩
        ⟨"videos", [⟨Sum.inl 0, "Source 0", true, [], 30, none, false, false⟩]⟩
        [Sum.inl 0, Sum.inr "a.mp4"] "videos").2.1 (by decide)
    exact h
  · exact (start_all_fatal_iff_zero_started
        ⟨[], fun _ => none,
          fun s => if s = Sum.inr "a.mp4" then ⟨true, 30, [[1]]⟩ else ⟨false, 0, []⟩⟩
        ⟨"videos", [⟨Sum.inl 0, "Source 0", true, [], 30, none, false, false⟩]⟩
        [Sum.inl 0, Sum.inr "a.mp4"] "videos").2.2
      ⟨Sum.inl 0, by decide, by decide⟩

/-- C10: the discovery file scan is total and errs to emptiness: a
non-directory folder yields `[]`; a directory yields exactly the entries
whose names end case-insensitively with ".mp4", each joined with the
folder; `get_all_sources` is camera indices followed by those paths. -/
theorem discovery_total_spec (env : Env) (folder : String) :
    (env.dirs folder = none →
        VideoSourceHelper.get_video_files env folder ".mp4" = []) ∧
    (∀ es, env.dirs folder = some es →
        VideoSourceHelper.get_video_files env folder ".mp4" =
          (es.filter (fun f => strEndsWith (strLower f) ".mp4")).map
            (fun f => osPathJoin folder f)) ∧
    VideoSourceHelper.get_all_sources env folder =
      env.deviceMap.map (fun p => Sum.inl p.1) ++
        (VideoSourceHelper.get_video_files env folder ".mp4").map Sum.inr := by
  refine ⟨?_, ?_, ?_⟩
  · intro hd
    simp [VideoSourceHelper.get_video_files, hd]
  · intro es hd
    have hext : strLower ".mp4" = ".mp4" := by decide
    simp [VideoSourceHelper.get_video_files, hd, hext]
  · simp [VideoSourceHelper.get_all_sources, VideoSourceHelper.get_camera_sources,
      List.map_map]

/-- C10 witness: a folder listing `["a.mp4", "b.txt", "C.MP4"]` yields
the two mp4 files (case-insensitively), joined with the folder. -/
theorem discovery_total_spec_witness :
    ((⟨[(0, "cam")], fun p => if p = "videos" then some ["a.mp4", "b.txt", "C.MP4"] else none,
        fun _ => ⟨true, 30, []⟩⟩ : Env).dirs "videos"
      = some ["a.mp4", "b.txt", "C.MP4"]) ∧
    VideoSourceHelper.get_video_files
        ⟨[(0, "cam")], fun p => if p = "videos" then some ["a.mp4", "b.txt", "C.MP4"] else none,
          fun _ => ⟨true, 30, []⟩⟩ "videos" ".mp4"
      = (["a.mp4", "b.txt", "C.MP4"].filter (fun f => strEndsWith (strLower f) ".mp4")).map
          (fun f => osPathJoin "videos" f) ∧
    VideoSourceHelper.get_all_sources
        ⟨[(0, "cam")], fun p => if p = "videos" then some ["a.mp4", "b.txt", "C.MP4"] else none,
          fun _ => ⟨true, 30, []⟩⟩ "videos"
      = [Sum.inl 0, Sum.inr "videos/a.mp4", Sum.inr "videos/C.MP4"] := by
  refine ⟨by decide, ?_, by decide⟩
  exact (discovery_total_spec
      ⟨[(0, "cam")], fun p => if p = "videos" then some ["a.mp4", "b.txt", "C.MP4"] else none,
        fun _ => ⟨true, 30, []⟩⟩ "videos").2.1 ["a.mp4", "b.txt", "C.MP4"] (by decide)

theorem addDetected_eq (env : Env) (ex : List SourceType) (l : List SourceType)
    (m : VideoManager) :
    VideoManager.addDetected env ex l m =
      { m with sources := m.sources ++ newWorkers env ex l m.sources.length } := by
  induction l generalizing m with
  | nil => simp [VideoManager.addDetected, newWorkers]
  | cons s rest ih =>
    rw [VideoManager.addDetected, newWorkers]
    by_cases hc : s ∈ ex
    · rw [if_pos hc, if_pos hc]
      exact ih m
    · rw [if_neg hc, if_neg hc]
      cases hinit : VideoSource.init (env.backend s) s
          (some ("Source " ++ toString m.sources.length)) with
      | error e =>
        rw [show VideoManager.add_new_source env m s
              ("Source " ++ toString m.sources.length) = m by
            simp [VideoManager.add_new_source, hinit]]
        exact ih m
      | ok w =>
        rw [show VideoManager.add_new_source env m s
              ("Source " ++ toString m.sources.length) =
            { m with sources := m.sources ++ [VideoSource.start w] } by
          simp [VideoManager.add_new_source, hinit]]
        rw [ih]
        simp

theorem restartIfInactive_source (env : Env) (w : VideoSource) :
    (VideoManager.restartIfInactive env w).source = w.source := by
  unfold VideoManager.restartIfInactive VideoSource.restart VideoSource.stop
    VideoSource.start
  cases hw : w.is_active <;> simp
  split <;> rfl

theorem restart_sources_sources (env : Env) (m : VideoManager) :
    (VideoManager.restart_sources env m).sources =
      (m.sources ++
        newWorkers env (m.sources.map (fun w => w.source))
          (VideoSourceHelper.get_all_sources env m.video_folder)
          m.sources.length).map (VideoManager.restartIfInactive env) := by
  unfold VideoManager.restart_sources
  simp only [addDetected_eq]

theorem VideoSource.start_source (w : VideoSource) :
    (VideoSource.start w).source = w.source := by
  unfold VideoSource.start
  split <;> rfl

theorem VideoSource.init_ok_source (b : Backend) (src : SourceType)
    (nm : Option String) (w : VideoSource)
    (h : VideoSource.init b src nm = Except.ok w) : w.source = src := by
  cases hb : b.opens
  · simp [VideoSource.init, hb] at h
  · simp [VideoSource.init, hb] at h
    rw [← h]

theorem newWorkers_source_not_mem (env : Env) (ex : List SourceType)
    (l : List SourceType) (k : Nat) :
    ∀ w ∈ newWorkers env ex l k, w.source ∉ ex := by
  induction l generalizing k with
  | nil => simp [newWorkers]
  | cons s rest ih =>
    rw [newWorkers]
    by_cases hc : s ∈ ex
    · rw [if_pos hc]
      exact ih k
    · rw [if_neg hc]
      cases hinit : VideoSource.init (env.backend s) s
          (some ("Source " ++ toString k)) with
      | error e => exact ih k
      | ok w =>
        intro w' hw'
        rcases List.mem_cons.mp hw' with rfl | hmem
        · rw [VideoSource.start_source, VideoSource.init_ok_source _ _ _ _ hinit]
          exact hc
        · exact ih (k + 1) w' hmem

theorem newWorkers_sources_sublist (env : Env) (ex : List SourceType)
    (l : List SourceType) (k : Nat) :
    ((newWorkers env ex l k).map (fun w => w.source)).Sublist l := by
  induction l generalizing k with
  | nil => simp [newWorkers]
  | cons s rest ih =>
    rw [newWorkers]
    by_cases hc : s ∈ ex
    · rw [if_pos hc]
      exact List.Sublist.cons s (ih k)
    · rw [if_neg hc]
      cases hinit : VideoSource.init (env.backend s) s
          (some ("Source " ++ toString k)) with
      | error e => exact List.Sublist.cons s (ih k)
      | ok w =>
        simp only [List.map_cons]
        rw [VideoSource.start_source, VideoSource.init_ok_source _ _ _ _ hinit]
        exact List.Sublist.cons₂ s (ih (k + 1))

theorem newWorkers_nil_of_mem (env : Env) (ex : List SourceType)
    (l : List SourceType) (k : Nat) (h : ∀ s ∈ l, s ∈ ex) :
    newWorkers env ex l k = [] := by
  induction l generalizing k with
  | nil => rfl
  | cons s rest ih =>
    rw [newWorkers]
    rw [if_pos (h s (List.mem_cons_self s rest))]
    exact ih k (fun t ht => h t (List.mem_cons_of_mem s ht))

theorem restart_sources_inactive_index (env : Env) (m : VideoManager)
    (i : Nat) (s : VideoSource)
    (hs : m.sources[i]? = some s) (hin : s.is_active = false) :
    (VideoManager.restart_sources env m).sources[i]? =
      some (VideoSource.restart (env.backend s.source) s).1 := by
  have hi : i < m.sources.length := (List.getElem?_eq_some.mp hs).1
  rw [restart_sources_sources, List.getElem?_map, List.getElem?_append, if_pos hi,
    hs]
  simp [VideoManager.restartIfInactive, hin]

theorem restart_sources_ids (env : Env) (m : VideoManager) :
    (VideoManager.restart_sources env m).sources.map (fun w => w.source) =
      m.sources.map (fun w => w.source) ++
        (newWorkers env (m.sources.map (fun w => w.source))
          (VideoSourceHelper.get_all_sources env m.video_folder)
          m.sources.length).map (fun w => w.source) := by
  rw [restart_sources_sources, List.map_map]
  rw [show ((fun w : VideoSource => w.source) ∘ VideoManager.restartIfInactive env) =
      (fun w : VideoSource => w.source) from
    funext (fun w => restartIfInactive_source env w)]
  exact List.map_append _ _ _

theorem restart_sources_id (env : Env) (m : VideoManager)
    (hsub : ∀ s ∈ VideoSourceHelper.get_all_sources env m.video_folder,
        s ∈ m.sources.map (fun w => w.source))
    (hact : ∀ w ∈ m.sources, w.active = true) :
    VideoManager.restart_sources env m = m := by
  have h1 : VideoManager.addDetected env (m.sources.map (fun w => w.source))
      (VideoSourceHelper.get_all_sources env m.video_folder) m = m := by
    rw [addDetected_eq, newWorkers_nil_of_mem _ _ _ _ hsub, List.append_nil]
  unfold VideoManager.restart_sources
  simp only [h1]
  have h2 : ∀ w ∈ m.sources, VideoManager.restartIfInactive env w = w := by
    intro w hw
    unfold VideoManager.restartIfInactive
    rw [show w.is_active = true from hact w hw]
    simp
  rw [List.map_congr_left (g := id) h2, List.map_id]

/-- C3 counterexample: a worker shut down intentionally via `stop()`
(through `stop_all`) is restarted by the next `restart_sources()`: the
code keys restart on `is_active()` alone and does not distinguish a
Stopped worker from a Dead one. -/
theorem reconcile_restarts_stopped_counterexample :
    (((VideoManager.init ⟨[], fun _ => none, fun _ => ⟨true, 30, [[1]]⟩⟩
          [Sum.inr "a.mp4"] "videos").bind VideoManager.start_all).map
        (fun m =>
          ((VideoManager.stop_all m).sources.map VideoSource.is_active,
            (VideoManager.restart_sources ⟨[], fun _ => none, fun _ => ⟨true, 30, [[1]]⟩⟩
                (VideoManager.stop_all m)).sources.map VideoSource.is_active))).toOption
      = some ([false], [true]) := by
  decide

/-- C3 (amended): reconciliation attempts `restart()` on every worker
that is not active — both workers whose capture loop died on a read
failure (Dead) and workers intentionally shut down via `stop()`
(Stopped); the code keys restart eligibility on `is_active()` alone. -/
theorem reconcile_restarts_every_inactive (env : Env) (m : VideoManager)
    (i : Nat) (s : VideoSource)
    (hs : m.sources[i]? = some s) (hin : s.is_active = false) :
    (VideoManager.restart_sources env m).sources[i]? =
      some (VideoSource.restart (env.backend s.source) s).1 :=
  restart_sources_inactive_index env m i s hs hin

/-- C3 witness: a stopped worker (handle released, not running, not
active) is picked up by `restart_sources`. -/
theorem reconcile_restarts_every_inactive_witness :
    ((⟨"videos", [⟨Sum.inr "a.mp4", "Source 0", false, [], 30, none, false, false⟩]⟩ :
        VideoManager).sources[0]? =
      some ⟨Sum.inr "a.mp4", "Source 0", false, [], 30, none, false, false⟩ ∧
      (⟨Sum.inr "a.mp4", "Source 0", false, [], 30, none, false, false⟩ :
        VideoSource).is_active = false) ∧
    (VideoManager.restart_sources ⟨[], fun _ => none, fun _ => ⟨true, 30, [[1]]⟩⟩
        ⟨"videos", [⟨Sum.inr "a.mp4", "Source 0", false, [], 30, none, false, false⟩]⟩).sources[0]? =
      some (VideoSource.restart
        ((⟨[], fun _ => none, fun _ => ⟨true, 30, [[1]]⟩⟩ : Env).backend (Sum.inr "a.mp4"))
        ⟨Sum.inr "a.mp4", "Source 0", false, [], 30, none, false, false⟩).1 :=
  ⟨⟨rfl, rfl⟩,
    reconcile_restarts_every_inactive ⟨[], fun _ => none, fun _ => ⟨true, 30, [[1]]⟩⟩
      ⟨"videos", [⟨Sum.inr "a.mp4", "Source 0", false, [], 30, none, false, false⟩]⟩
      0 ⟨Sum.inr "a.mp4", "Source 0", false, [], 30, none, false, false⟩ rfl rfl⟩

/-- C5: reconciliation never duplicates an identifier: identifiers
stay unique, the tracked prefix of the registry keeps exactly the old
identifiers, every appended worker is for an identifier not already
present, and a tracked inactive worker gets `restart()` instead. -/
theorem reconcile_no_duplicate_identifiers (env : Env) (m : VideoManager)
    (h1 : (m.sources.map (fun w => w.source)).Nodup)
    (h2 : (VideoSourceHelper.get_all_sources env m.video_folder).Nodup) :
    ((VideoManager.restart_sources env m).sources.map (fun w => w.source)).Nodup ∧
    ((VideoManager.restart_sources env m).sources.map (fun w => w.source)).take
        m.sources.length = m.sources.map (fun w => w.source) ∧
    (∀ w' ∈ (VideoManager.restart_sources env m).sources.drop m.sources.length,
        w'.source ∉ m.sources.map (fun w => w.source)) ∧
    (∀ (i : Nat) (s : VideoSource), m.sources[i]? = some s → s.is_active = false →
        (VideoManager.restart_sources env m).sources[i]? =
          some (VideoSource.restart (env.backend s.source) s).1) := by
  have hids := restart_sources_ids env m
  have hnot := newWorkers_source_not_mem env (m.sources.map (fun w => w.source))
    (VideoSourceHelper.get_all_sources env m.video_folder) m.sources.length
  have hsub := newWorkers_sources_sublist env (m.sources.map (fun w => w.source))
    (VideoSourceHelper.get_all_sources env m.video_folder) m.sources.length
  have hlen : m.sources.length = (m.sources.map (fun w => w.source)).length := by
    simp
  refine ⟨?_, ?_, ?_, ?_⟩
  · rw [hids, List.nodup_append]
    refine ⟨h1, hsub.nodup h2, ?_⟩
    intro a ha hanew
    rcases List.mem_map.mp hanew with ⟨w, hw, hws⟩
    exact hnot w hw (hws ▸ ha)
  · rw [hids, hlen, List.take_left]
  · intro w' hw'
    rw [show (VideoManager.restart_sources env m).sources.drop m.sources.length =
        (newWorkers env (m.sources.map (fun w => w.source))
          (VideoSourceHelper.get_all_sources env m.video_folder)
          m.sources.length).map (VideoManager.restartIfInactive env) by
      rw [restart_sources_sources, List.map_append]
      exact List.drop_left' (by simp)] at hw'
    rcases List.mem_map.mp hw' with ⟨w, hw, hws⟩
    rw [← hws, restartIfInactive_source]
    exact hnot w hw
  · intro i s hs hin
    exact restart_sources_inactive_index env m i s hs hin

/-- C5 witness: a registry tracking `0` (inactive) and `"a.mp4"`
(active) reconciled against a discovery result containing one new file;
the hypotheses hold by computation. -/
theorem reconcile_no_duplicate_identifiers_witness :
    (((⟨"videos",
          [⟨Sum.inl 0, "Source 0", false, [], 30, none, false, false⟩,
            ⟨Sum.inr "a.mp4", "Source 1", true, [], 30, none, true, true⟩]⟩ :
          VideoManager).sources.map (fun w => w.source)).Nodup ∧
      (VideoSourceHelper.get_all_sources
          ⟨[], fun p => if p = "videos" then some ["b.mp4"] else none,
            fun _ => ⟨true, 30, [[1]]⟩⟩ "videos").Nodup) ∧
    ((VideoManager.restart_sources
          ⟨[], fun p => if p = "videos" then some ["b.mp4"] else none,
            fun _ => ⟨true, 30, [[1]]⟩⟩
          ⟨"videos",
            [⟨Sum.inl 0, "Source 0", false, [], 30, none, false, false⟩,
              ⟨Sum.inr "a.mp4", "Source 1", true, [], 30, none, true, true⟩]⟩).sources.map
        (fun w => w.source)).Nodup :=
  ⟨⟨by decide, by decide⟩,
    (reconcile_no_duplicate_identifiers
      ⟨[], fun p => if p = "videos" then some ["b.mp4"] else none,
        fun _ => ⟨true, 30, [[1]]⟩⟩
      ⟨"videos",
        [⟨Sum.inl 0, "Source 0", false, [], 30, none, false, false⟩,
          ⟨Sum.inr "a.mp4", "Source 1", true, [], 30, none, true, true⟩]⟩
      (by decide) (by decide)).1⟩

/-- C6: under a stable environment (discovery yields only identifiers
already tracked, every tracked worker active) reconciliation is a fixed
point: two consecutive `restart_sources()` calls leave the registry —
in particular its worker count and identifier list — unchanged. -/
theorem reconcile_fixed_point (env : Env) (m : VideoManager)
    (hsub : ∀ s ∈ VideoSourceHelper.get_all_sources env m.video_folder,
        s ∈ m.sources.map (fun w => w.source))
    (hact : ∀ w ∈ m.sources, w.active = true) :
    VideoManager.restart_sources env (VideoManager.restart_sources env m) = m ∧
    (VideoManager.restart_sources env
        (VideoManager.restart_sources env m)).sources.length = m.sources.length ∧
    (VideoManager.restart_sources env
          (VideoManager.restart_sources env m)).sources.map (fun w => w.source) =
      m.sources.map (fun w => w.source) := by
  have h := restart_sources_id env m hsub hact
  rw [h, h]
  exact ⟨rfl, rfl, rfl⟩

/-- C6 witness: a registry with one active worker whose identifier is
the only one discovery reports. -/
theorem reconcile_fixed_point_witness :
    ((∀ s ∈ VideoSourceHelper.get_all_sources
          ⟨[], fun p => if p = "videos" then some ["a.mp4"] else none,
            fun _ => ⟨true, 30, [[1]]⟩⟩ "videos",
        s ∈ ((⟨"videos",
            [⟨Sum.inr "videos/a.mp4", "Source 0", true, [], 30, none, true, true⟩]⟩ :
          VideoManager).sources.map (fun w => w.source))) ∧
      (∀ w ∈ (⟨"videos",
            [⟨Sum.inr "videos/a.mp4", "Source 0", true, [], 30, none, true, true⟩]⟩ :
          VideoManager).sources, w.active = true)) ∧
    VideoManager.restart_sources
        ⟨[], fun p => if p = "videos" then some ["a.mp4"] else none,
          fun _ => ⟨true, 30, [[1]]⟩⟩
        (VideoManager.restart_sources
          ⟨[], fun p => if p = "videos" then some ["a.mp4"] else none,
            fun _ => ⟨true, 30, [[1]]⟩⟩
          ⟨"videos",
            [⟨Sum.inr "videos/a.mp4", "Source 0", true, [], 30, none, true, true⟩]⟩) =
      ⟨"videos", [⟨Sum.inr "videos/a.mp4", "Source 0", true, [], 30, none, true, true⟩]⟩ :=
  ⟨⟨by decide, by decide⟩,
    (reconcile_fixed_point
      ⟨[], fun p => if p = "videos" then some ["a.mp4"] else none,
        fun _ => ⟨true, 30, [[1]]⟩⟩
      ⟨"videos", [⟨Sum.inr "videos/a.mp4", "Source 0", true, [], 30, none, true, true⟩]⟩
      (by decide) (by decide)).1⟩
